import Mathlib

/-
  Verification development for the record-decoding module `database_records.py`
  (dexctrack / openaps dexcom_reader lineage).

  Shallow embedding conventions:
  * A device page buffer is a `List Nat` of byte values (each below 256; the
    decoder masks with `% 256` where a byte's value is consumed, mirroring the
    fact that Python `bytes` elements are always in `0..255`).
  * Python `struct` format strings are parsed by `parseFormat` into a list of
    `FieldSpec`s; `unpack` mirrors `struct.Struct(FORMAT).unpack`, failing
    (`none`, the analogue of `struct.error`) unless the buffer length equals
    the format's computed size.
  * Floating-point fields (`d`) are kept as their 64-bit little-endian bit
    patterns (`Val.f64bits`); no claim depends on float arithmetic.
  * The external collaborators are abstracted exactly as the module imports
    them: the checksum `crc16.crc16` is an arbitrary function
    `crc16 : List Nat → Nat`, and the epoch conversion
    `util.ReceiverTimeToTime` is an arbitrary function `conv : Nat → Nat`
    (calendar time modelled by its image under an arbitrary function, so that
    theorems quantifying over `conv` capture exactly "the external epoch
    conversion applied to ...").
  * Exceptions become `Except DexError` / `Option` values.
-/

inductive FieldSpec where
  | u8
  | u16
  | u32
  | i8
  | i16
  | f64
  | char
  | bytes (n : Nat)
deriving DecidableEq

/-- Byte width of one struct field, as `struct.calcsize` computes it for
`<`-prefixed (packed, little-endian) formats. -/
def fieldSize : FieldSpec → Nat
  | .u8 => 1
  | .u16 => 2
  | .u32 => 4
  | .i8 => 1
  | .i16 => 2
  | .f64 => 8
  | .char => 1
  | .bytes n => n

def structSize (fmt : List FieldSpec) : Nat :=
  (fmt.map fieldSize).sum

/-- Little-endian byte-list to natural number (first byte least significant);
each entry is masked to a byte. -/
def readLE : List Nat → Nat
  | [] => 0
  | b :: bs => b % 256 + 256 * readLE bs

/-- A decoded scalar, mirroring what Python `struct.unpack` yields per field:
an int (unsigned fields give `.nat`, signed fields `.int`), a bytes object, or
a float kept as its 64-bit pattern. -/
inductive Val where
  | nat (n : Nat)
  | int (i : Int)
  | f64bits (bits : Nat)
  | bytes (bs : List Nat)
deriving DecidableEq

def decodeField : FieldSpec → List Nat → Val
  | .u8, bs => .nat (readLE bs)
  | .u16, bs => .nat (readLE bs)
  | .u32, bs => .nat (readLE bs)
  | .i8, bs =>
      let n := readLE bs
      .int (if n < 128 then (n : Int) else (n : Int) - 256)
  | .i16, bs =>
      let n := readLE bs
      .int (if n < 32768 then (n : Int) else (n : Int) - 65536)
  | .f64, bs => .f64bits (readLE bs)
  | .char, bs => .bytes (bs.map (· % 256))
  | .bytes _, bs => .bytes (bs.map (· % 256))

/-- Field-by-field decoding of a buffer (the caller guarantees the length;
`unpack` below performs `struct.unpack`'s exact-length check). -/
def unpackFields : List FieldSpec → List Nat → List Val
  | [], _ => []
  | f :: fs, bs => decodeField f (bs.take (fieldSize f)) :: unpackFields fs (bs.drop (fieldSize f))

/-- `struct.Struct(fmt).unpack(bs)`: errors (`none`) unless the buffer length
equals the format size. -/
def unpack (fmt : List FieldSpec) (bs : List Nat) : Option (List Val) :=
  if bs.length = structSize fmt then some (unpackFields fmt bs) else none

/-- Intermediate classification of a format character: a fixed-width field
kind, or `s` whose repeat count is a byte-string length. -/
inductive FmtItem where
  | fixed (f : FieldSpec)
  | str
deriving DecidableEq

def charSpec (c : Char) : Option FmtItem :=
  if c = 'I' then some (.fixed .u32)
  else if c = 'H' then some (.fixed .u16)
  else if c = 'B' then some (.fixed .u8)
  else if c = 'b' then some (.fixed .i8)
  else if c = 'h' then some (.fixed .i16)
  else if c = 'd' then some (.fixed .f64)
  else if c = 'c' then some (.fixed .char)
  else if c = 's' then some .str
  else none

/-- Format-string scanner: `acc` is the pending repeat count, `d` whether any
digit has been read (Python distinguishes a missing count, meaning 1, from an
explicit 0). Trailing digits without a format character are a struct error. -/
def parseFmtAux : List Char → Nat → Bool → Option (List FieldSpec)
  | [], _, d => if d then none else some []
  | c :: cs, acc, d =>
    if c.isDigit then parseFmtAux cs (acc * 10 + (c.toNat - 48)) true
    else
      match charSpec c with
      | none => none
      | some item =>
        let k := if d then acc else 1
        match parseFmtAux cs 0 false with
        | none => none
        | some rest =>
          match item with
          | .fixed f => some (List.replicate k f ++ rest)
          | .str => some (.bytes k :: rest)

/-- Parse a `struct` format string. Every format in this module is explicitly
little-endian/packed (`<` prefix); anything else is not modelled. -/
def parseFormat (s : String) : Option (List FieldSpec) :=
  match s.toList with
  | '<' :: cs => parseFmtAux cs 0 false
  | _ => none

/-- Python slice `l[a:b]` for non-negative bounds (clamping at the ends). -/
def pySlice (l : List α) (a b : Nat) : List α :=
  (l.drop a).take (b - a)

/-- Python slice `l[a:b]` with possibly negative (from-the-end) bounds, as
needed by `Calibration.__init__` where the bound is a computed int. -/
def pySliceI (l : List α) (a b : Int) : List α :=
  let n : Int := l.length
  let s := if a < 0 then (n + a).toNat else a.toNat
  let e := if b < 0 then (n + b).toNat else b.toNat
  (l.drop s).take (e - s)

/-- Python `l[:-2]`. -/
def pyTrunc2 (l : List Nat) : List Nat :=
  l.take (l.length - 2)

/-- Python `l[-2:]`. -/
def lastTwo (l : List Nat) : List Nat :=
  l.drop (l.length - 2)

/-- Python tuple indexing `data[i]` on a decoded value tuple. Decoded tuples
always carry their format's full arity, so the default is unreachable for
records produced by the decoders below. -/
def pyGet (l : List Val) (i : Nat) : Val :=
  (l.get? i).getD (.nat 0)

def Val.num : Val → Nat
  | .nat n => n
  | .int i => i.toNat
  | _ => 0

def Val.toInt : Val → Int
  | .nat n => n
  | .int i => i
  | _ => 0

/-- Error taxonomy of the module. `CrcError` carries the record class name
(the source raises `constants.CrcError('Could not parse ' + name)`);
`StructError` is Python's `struct.error`; `IndexError` an out-of-bounds list
index; `NotImplementedError` the `_CheckFormat` guard. `MalformedRecord` is
the condition named by the specification; nothing in the source produces it. -/
inductive DexError where
  | CrcError (name : String)
  | StructError
  | IndexError
  | NotImplementedError
  | MalformedRecord
deriving DecidableEq

/-- A decoded fixed-layout record: the unpacked value tuple and the raw byte
slice it came from (`self.data`, `self.raw_data`). -/
structure BaseRecord where
  data : List Val
  raw_data : List Nat
deriving DecidableEq

/-- `BaseDatabaseRecord.check_crc`: compare `crc16(raw_data[:-2])` with the
`crc` property, which is `self.data[-1]` (the last unpacked field). -/
def BaseDatabaseRecord.check_crc (crc16 : List Nat → Nat) (name : String) (r : BaseRecord) : Except DexError Unit :=
  match r.data.getLast? with
  | none => .error .IndexError
  | some v =>
    if Val.nat (crc16 (pyTrunc2 r.raw_data)) = v then .ok () else .error (.CrcError name)

/-- `BaseDatabaseRecord.Create(data, record_counter)`: slice
`size` bytes at `record_counter * size`, unpack, construct, `check_crc`.
`name` stands for `cls.__name__` (used in the `CrcError` message). -/
def BaseDatabaseRecord.Create (FORMAT : String) (name : String) (crc16 : List Nat → Nat)
    (data : List Nat) (record_counter : Nat) : Except DexError BaseRecord :=
  if FORMAT = "" then .error .NotImplementedError
  else
    match parseFormat FORMAT with
    | none => .error .StructError
    | some fmt =>
      let size := structSize fmt
      let offset := record_counter * size
      let raw_data := pySlice data offset (offset + size)
      match unpack fmt raw_data with
      | none => .error .StructError
      | some unpacked_data =>
        match BaseDatabaseRecord.check_crc crc16 name ⟨unpacked_data, raw_data⟩ with
        | .ok _ => .ok ⟨unpacked_data, raw_data⟩
        | .error e => .error e

/-
  GenericTimestampedRecord: the two universal leading fields and their
  accessors. `conv` abstracts `util.ReceiverTimeToTime`.
-/

def GenericTimestampedRecord.system_secs (r : BaseRecord) : Nat :=
  (pyGet r.data 0).num

def GenericTimestampedRecord.display_secs (r : BaseRecord) : Nat :=
  (pyGet r.data 1).num

def GenericTimestampedRecord.system_time (conv : Nat → Nat) (r : BaseRecord) : Nat :=
  conv (GenericTimestampedRecord.system_secs r)

def GenericTimestampedRecord.display_time (conv : Nat → Nat) (r : BaseRecord) : Nat :=
  conv (GenericTimestampedRecord.display_secs r)

def GenericXMLRecord.FORMAT : String := "<II490sH"

/-
  InsertionRecord: FORMAT '<3IBH'; fields 0,1 timestamps, 2 insertion seconds
  (sentinel 0xFFFFFFFF means "use system time"), 3 session-state byte.
-/

def InsertionRecord.FORMAT : String := "<3IBH"

def InsertionRecord.Create (crc16 : List Nat → Nat) (data : List Nat) (rc : Nat) : Except DexError BaseRecord :=
  BaseDatabaseRecord.Create InsertionRecord.FORMAT "InsertionRecord" crc16 data rc

def InsertionRecord.insertion_time (conv : Nat → Nat) (r : BaseRecord) : Nat :=
  if (pyGet r.data 2).num = 0xFFFFFFFF then GenericTimestampedRecord.system_time conv r
  else conv ((pyGet r.data 2).num)

def InsertionRecord.insertion_secs (r : BaseRecord) : Nat :=
  (pyGet r.data 2).num

/-- Positional session-state symbol table (index 0 is Python `None`). -/
def sessionStates : List (Option String) :=
  [none, some "REMOVED", some "EXPIRED", some "RESIDUAL_DEVIATION",
   some "COUNTS_DEVIATION", some "SECOND_SESSION", some "OFF_TIME_LOSS",
   some "STARTED", some "BAD_TRANSMITTER", some "MANUFACTURING_MODE",
   some "UNKNOWN1", some "UNKNOWN2", some "UNKNOWN3", some "UNKNOWN4",
   some "UNKNOWN5", some "UNKNOWN6", some "UNKNOWN7", some "UNKNOWN8"]

/-- `states[self.data[3]]`: a plain Python list index, so an out-of-range raw
value raises `IndexError` rather than yielding an "unknown" marker. -/
def InsertionRecord.session_state (r : BaseRecord) : Except DexError (Option String) :=
  match sessionStates.get? ((pyGet r.data 3).num) with
  | none => .error .IndexError
  | some s => .ok s

def InsertionRecord.state_value (r : BaseRecord) : Nat :=
  (pyGet r.data 3).num

def G5InsertionRecord.FORMAT : String := "<3IBI6sH"

def G5UserSettings.FORMAT : String := "<4I6sI8HBBIH"

def G6UserSettings.FORMAT : String := "<4I6sI8HBBHB4s7BH"

/-
  EventRecord: FORMAT '<2I2B2IH'; fields 2,3 are the category/sub-category
  bytes, field 4 is the event ("meter") time that the overridden display_time
  uses, field 5 the raw magnitude.
-/

def EventRecord.FORMAT : String := "<2I2B2IH"

def EventRecord.Create (crc16 : List Nat → Nat) (data : List Nat) (rc : Nat) : Except DexError BaseRecord :=
  BaseDatabaseRecord.Create EventRecord.FORMAT "EventRecord" crc16 data rc

def eventTypes : List (Option String) :=
  [none, some "CARBS", some "INSULIN", some "HEALTH", some "EXCERCISE", some "MAX_VALUE"]

def EventRecord.event_type (r : BaseRecord) : Except DexError (Option String) :=
  match eventTypes.get? ((pyGet r.data 2).num) with
  | none => .error .IndexError
  | some s => .ok s

/-- The per-category sub-type tables (`subtypes` dict in the source); a
category not in the dict has no table. -/
def eventSubtypesFor (t : String) : Option (List (Option String)) :=
  if t = "INSULIN" then some [none, some "FAST", some "LONG"]
  else if t = "HEALTH" then
    some [none, some "ILLNESS", some "STRESS", some "HIGH_SYMPTOMS",
          some "LOW_SYMTOMS", some "CYCLE", some "ALCOHOL"]
  else if t = "EXCERCISE" then
    some [none, some "LIGHT", some "MEDIUM", some "HEAVY", some "MAX_VALUE"]
  else none

/-- `if self.event_type in subtypes: return subtypes[self.event_type][self.data[3]]`
(falling through returns Python `None`). The inner index is again a raw list
index and can raise `IndexError`. -/
def EventRecord.event_sub_type (r : BaseRecord) : Except DexError (Option String) :=
  match EventRecord.event_type r with
  | .error e => .error e
  | .ok none => .ok none
  | .ok (some t) =>
    match eventSubtypesFor t with
    | none => .ok none
    | some tbl =>
      match tbl.get? ((pyGet r.data 3).num) with
      | none => .error .IndexError
      | some s => .ok s

/-- EventRecord overrides display_time to convert `self.data[4]` (the event
time field), not the generic `self.data[1]`. -/
def EventRecord.display_time (conv : Nat → Nat) (r : BaseRecord) : Nat :=
  conv ((pyGet r.data 4).num)

def EventRecord.int_type (r : BaseRecord) : Nat :=
  (pyGet r.data 2).num

def EventRecord.int_sub_type (r : BaseRecord) : Nat :=
  (pyGet r.data 3).num

def EventRecord.meter_secs (r : BaseRecord) : Nat :=
  (pyGet r.data 4).num

/-
  Meter calibration entries (two generations).
-/

def MeterRecord.FORMAT : String := "<2IHIH"

/-- The legacy meter record has no stored test number; the accessor is the
constant 0. -/
def MeterRecord.testNum (_r : BaseRecord) : Nat := 0

def G5MeterRecord.FORMAT : String := "<2IHBIIH"

def G5MeterRecord.Create (crc16 : List Nat → Nat) (data : List Nat) (rc : Nat) : Except DexError BaseRecord :=
  BaseDatabaseRecord.Create G5MeterRecord.FORMAT "G5MeterRecord" crc16 data rc

def G5MeterRecord.xx_testNum (r : BaseRecord) : Nat :=
  (pyGet r.data 5).num

/-- `self.data[5] & 0xff`: the low byte of the combined field. -/
def G5MeterRecord.xx (r : BaseRecord) : Nat :=
  (pyGet r.data 5).num &&& 0xff

/-- `(self.data[5] >> 8) & 0xffffff`: the HIGH three bytes of the combined
field are the test number (the low byte is the unknown `xx`). -/
def G5MeterRecord.testNum (r : BaseRecord) : Nat :=
  ((pyGet r.data 5).num >>> 8) &&& 0xffffff

/-
  Glucose (EGV) records.
-/

def EGV_TESTNUM_MASK : Nat := 0x00ffffff

def EGVRecord.FORMAT : String := "<2IHBH"

def EGVRecord.Create (crc16 : List Nat → Nat) (data : List Nat) (rc : Nat) : Except DexError BaseRecord :=
  BaseDatabaseRecord.Create EGVRecord.FORMAT "EGVRecord" crc16 data rc

def EGVRecord.full_glucose (r : BaseRecord) : Nat :=
  (pyGet r.data 2).num

def EGVRecord.full_trend (r : BaseRecord) : Nat :=
  (pyGet r.data 3).num

def EGVRecord.testNum (_r : BaseRecord) : Nat := 0

def SensorRecord.FORMAT : String := "<2IIIhH"

def G5EGVRecord.FORMAT : String := "<2IHIBIBBHH"

def G5EGVRecord.Create (crc16 : List Nat → Nat) (data : List Nat) (rc : Nat) : Except DexError BaseRecord :=
  BaseDatabaseRecord.Create G5EGVRecord.FORMAT "G5EGVRecord" crc16 data rc

/-- `self.data[5] & EGV_TESTNUM_MASK` (no shift, unlike `G5MeterRecord`). -/
def G5EGVRecord.testNum (r : BaseRecord) : Nat :=
  (pyGet r.data 5).num &&& EGV_TESTNUM_MASK

def G5EGVRecord.full_trend (r : BaseRecord) : Nat :=
  (pyGet r.data 6).num

/-- Field 8 is zero on G5 and the real-time (unsmoothed) glucose on G6. -/
def G5EGVRecord.realtime (r : BaseRecord) : Nat :=
  (pyGet r.data 8).num

/-- G6EGVRecord redeclares the identical format string and overrides nothing
else. -/
def G6EGVRecord.FORMAT : String := "<2IHIBIBBHH"

def G6EGVRecord.Create (crc16 : List Nat → Nat) (data : List Nat) (rc : Nat) : Except DexError BaseRecord :=
  BaseDatabaseRecord.Create G6EGVRecord.FORMAT "G6EGVRecord" crc16 data rc

def G6EGVRecord.testNum : BaseRecord → Nat := G5EGVRecord.testNum

def G6EGVRecord.full_trend : BaseRecord → Nat := G5EGVRecord.full_trend

def G6EGVRecord.realtime : BaseRecord → Nat := G5EGVRecord.realtime

/-- The fixed-layout variant formats of the module (the Calibration family
goes through its own variable-length path). -/
def allFormats : List String :=
  [GenericXMLRecord.FORMAT, InsertionRecord.FORMAT, G5InsertionRecord.FORMAT,
   G5UserSettings.FORMAT, G6UserSettings.FORMAT, MeterRecord.FORMAT,
   G5MeterRecord.FORMAT, EventRecord.FORMAT, SensorRecord.FORMAT,
   EGVRecord.FORMAT, G5EGVRecord.FORMAT, G6EGVRecord.FORMAT]

/-
  Variable-length Calibration record and its nested Sub-Calibration records.
-/

def Calibration.FORMAT : String := "<2Iddd3cdb"

def SubCal.FORMAT : String := "<IIIIc"

/-- The parsed field list of `Calibration.FORMAT` (pinned by
`calFmt_parses`): two u32 timestamps, three doubles, three chars, a double,
and the signed sub-record count byte at tuple index 9 (byte offset 43). -/
def calFmtList : List FieldSpec :=
  [.u32, .u32, .f64, .f64, .f64, .char, .char, .char, .f64, .i8]

/-- The parsed field list of `SubCal.FORMAT` (pinned by `subCalFmt_parses`):
four u32 fields and one char, 17 bytes in all. -/
def subCalFmtList : List FieldSpec :=
  [.u32, .u32, .u32, .u32, .char]

/-- A decoded Sub-Calibration record (`SubCal.__init__`): no checksum of its
own; `displayOffset` stores the parent Calibration's `data[1]`. -/
structure SubCalRec where
  data : List Val
  raw_data : List Nat
  displayOffset : Val
deriving DecidableEq

/-- `SubCal.__init__(raw_data, displayOffset)`: a bare unpack of the slice;
`none` is the `struct.error` the caller propagates. -/
def SubCal.init (raw_data : List Nat) (displayOffset : Val) : Option SubCalRec :=
  match unpack subCalFmtList raw_data with
  | none => none
  | some vals => some ⟨vals, raw_data, displayOffset⟩

/-- A decoded Calibration record (`self.page_data` is merely an alias of
`self.raw_data` in the source and is not duplicated here). -/
structure CalRecord where
  data : List Val
  raw_data : List Nat
  subcals : List SubCalRec
deriving DecidableEq

/-- The Python `for i in xrange(k)` loop that accumulates decoded sub-records
and aborts on the first `struct.error`. -/
def optMapList (f : α → Option β) : List α → Option (List β)
  | [] => some []
  | a :: as =>
    match f a with
    | none => none
    | some b =>
      match optMapList f as with
      | none => none
      | some bs => some (b :: bs)

/-- Overridden `Calibration.crc` property:
`struct.unpack('H', self.raw_data[-2:])[0]` — the LAST two bytes of the whole
raw slice as a 16-bit integer (native byte order on the target platform is
little-endian). Errors if fewer than two bytes are available. -/
def Calibration.crc (r : CalRecord) : Except DexError Nat :=
  if (lastTwo r.raw_data).length = 2 then .ok (readLE (lastTwo r.raw_data))
  else .error .StructError

/-- Calibration `check_crc`: the inherited `calculate_crc` hashes
`raw_data[:-2]` (every byte except the final two) and is compared against the
overridden `crc` property. -/
def Calibration.check_crc (crc16 : List Nat → Nat) (name : String) (r : CalRecord) : Except DexError Unit :=
  match Calibration.crc r with
  | .error e => .error e
  | .ok c => if crc16 (pyTrunc2 r.raw_data) = c then .ok () else .error (.CrcError name)

/-- `Calibration.__init__(data, raw_data)`: read `numsub = int(data[9])`,
slice the sub-record span `raw_data[44 : 44 + 17*numsub]` (a Python slice of a
possibly negative extent), decode `numsub` sub-records from consecutive
17-byte slices of it, then verify the whole-record checksum. The source also
computes `caldata` and `crcdata` slices that it never uses; they are omitted
(note: `crcdata`, the two bytes right after the sub-record span, is NOT what
`check_crc` compares against). -/
def Calibration.init (name : String) (crc16 : List Nat → Nat)
    (vals : List Val) (raw_data : List Nat) : Except DexError CalRecord :=
  let numsub : Int := (pyGet vals 9).toInt
  let subsize : Nat := structSize subCalFmtList
  let offset : Int := numsub * subsize
  let calsize : Nat := structSize calFmtList
  let subdata := pySliceI raw_data calsize (calsize + offset)
  match optMapList
      (fun i => SubCal.init (pySlice subdata (i * subsize) (i * subsize + subsize)) (pyGet vals 1))
      (List.range numsub.toNat) with
  | none => .error .StructError
  | some subcals =>
    match Calibration.check_crc crc16 name ⟨vals, raw_data, subcals⟩ with
    | .ok _ => .ok ⟨vals, raw_data, subcals⟩
    | .error e => .error e

def Calibration.LEGACY_SIZE : Nat := 148

def Calibration.REV_2_SIZE : Nat := 249

/-- `Calibration.Create(data, record_counter)` parameterised by the class
size constant (`_ClassSize()` is `REV_2_SIZE` for `Calibration` and
`LEGACY_SIZE` for `LegacyCalibration`): the raw slice spans the full class
size while only the fixed 44-byte header is unpacked here. -/
def Calibration.CreateSized (classSize : Nat) (name : String) (crc16 : List Nat → Nat)
    (data : List Nat) (record_counter : Nat) : Except DexError CalRecord :=
  let offset := record_counter * classSize
  let cal_size := structSize calFmtList
  let raw_data := pySlice data offset (offset + classSize)
  let cal_data := pySlice data offset (offset + cal_size)
  match unpack calFmtList cal_data with
  | none => .error .StructError
  | some unpacked_data => Calibration.init name crc16 unpacked_data raw_data

def Calibration.Create (crc16 : List Nat → Nat) (data : List Nat) (rc : Nat) : Except DexError CalRecord :=
  Calibration.CreateSized Calibration.REV_2_SIZE "Calibration" crc16 data rc

def LegacyCalibration.Create (crc16 : List Nat → Nat) (data : List Nat) (rc : Nat) : Except DexError CalRecord :=
  Calibration.CreateSized Calibration.LEGACY_SIZE "LegacyCalibration" crc16 data rc

def Calibration.numsub (r : CalRecord) : Int :=
  (pyGet r.data 9).toInt

/-- Values appearing in the `to_dict` export: ISO-rendered calendar times,
scalars, hex/byte strings, and the nested list of sub-record exports. -/
inductive DVal where
  | str : String → DVal
  | nat : Nat → DVal
  | int : Int → DVal
  | bits : Nat → DVal
  | bytes : List Nat → DVal
  | dlist : List (List (String × DVal)) → DVal

def dvalOf : Val → DVal
  | .nat n => .nat n
  | .int i => .int i
  | .f64bits b => .bits b
  | .bytes bs => .bytes bs

def hexDigit (n : Nat) : Char :=
  "0123456789abcdef".toList.getD n '0'

/-- `binascii.hexlify` on a byte list. -/
def hexlify (bs : List Nat) : String :=
  String.mk ((bs.map (fun b => [hexDigit (b % 256 / 16), hexDigit (b % 16)])).flatten)

/-- `SubCal.to_dict`: `BASE_FIELDS` is emptied, `FIELDS` is
entered/meter/sensor/applied; `entered` and `applied` are converted calendar
times (rendered by isoformat in the export loop), `meter` and `sensor` plain
ints. `iso` abstracts `datetime.isoformat`. -/
def SubCal.to_dict (conv : Nat → Nat) (iso : Nat → String) (s : SubCalRec) : List (String × DVal) :=
  [("entered", .str (iso (conv ((pyGet s.data 0).num)))),
   ("meter", .nat ((pyGet s.data 1).num)),
   ("sensor", .nat ((pyGet s.data 2).num)),
   ("applied", .str (iso (conv ((pyGet s.data 3).num))))]

/-- `Calibration.to_dict`: the inherited field-mapping export over
`BASE_FIELDS + FIELDS` (system_time, display_time, slope, intercept, scale,
decay, numsub, raw) plus the sub-record export list under the dedicated
`subrecords` key. -/
def Calibration.to_dict (conv : Nat → Nat) (iso : Nat → String) (r : CalRecord) : List (String × DVal) :=
  [("system_time", .str (iso (conv ((pyGet r.data 0).num)))),
   ("display_time", .str (iso (conv ((pyGet r.data 1).num)))),
   ("slope", dvalOf (pyGet r.data 2)),
   ("intercept", dvalOf (pyGet r.data 3)),
   ("scale", dvalOf (pyGet r.data 4)),
   ("decay", dvalOf (pyGet r.data 8)),
   ("numsub", .int (Calibration.numsub r)),
   ("raw", .str (hexlify r.raw_data))]
  ++ [("subrecords", .dlist (r.subcals.map (SubCal.to_dict conv iso)))]

/-
  Spec-modelled definition used only to compare the specification's
  description of the Calibration checksum placement against the code.
-/

/-- Modelled from the spec: "compute checksum over header bytes + all
sub-record bytes ... compare to the trailing 16-bit field" located
"immediately after the sub-record span". The checksummed span is the 44
header bytes plus `k` 17-byte sub-records, and the comparison field is the
two bytes right after that span. (This is the `crcdata` slice the source
computes and then never uses.) -/
def specCalibrationCrcCheck (crc16 : List Nat → Nat) (raw : List Nat) (k : Nat) : Prop :=
  crc16 (raw.take (structSize calFmtList + structSize subCalFmtList * k))
    = readLE (pySlice raw (structSize calFmtList + structSize subCalFmtList * k)
        (structSize calFmtList + structSize subCalFmtList * k + 2))

/-
  Concrete inputs for counterexamples and witnesses. `crcZero` and `crcLen`
  are sample instantiations of the external checksum function.
-/

def crcZero : List Nat → Nat := fun _ => 0

def crcLen : List Nat → Nat := fun bs => bs.length % 65536

/-- A 249-byte revision-2 Calibration record: `numsub` byte (offset 43) is 0,
the final two bytes hold 247 little-endian, which is `crcLen` of the 247
checksummed bytes. Decodes successfully. -/
def c1buf : List Nat := List.replicate 247 0 ++ [247, 0]

def c1rec : CalRecord := (Calibration.Create crcLen c1buf 0).toOption.getD ⟨[], [], []⟩

/-- A 249-byte revision-2 Calibration record whose `numsub` byte is 13:
44 + 13*17 = 265 > 249, so the 13th sub-record slice is short. -/
def c2buf : List Nat := (List.replicate 249 0).set 43 13

/-- A 15-byte InsertionRecord whose session-state byte (offset 12) is 20,
beyond the 18-entry state table; trailing checksum 0 matches `crcZero`. -/
def c3buf : List Nat := [1, 0, 0, 0, 2, 0, 0, 0, 3, 0, 0, 0, 20, 0, 0]

def c3rec : BaseRecord := (InsertionRecord.Create crcZero c3buf 0).toOption.getD ⟨[], []⟩

/-- A 20-byte EventRecord whose category byte (offset 8) is 6, beyond the
6-entry event-type table. -/
def c3evBuf : List Nat := [1, 0, 0, 0, 5, 0, 0, 0, 6, 0, 9, 0, 0, 0, 0, 0, 0, 0, 0, 0]

def c3evRec : BaseRecord := (EventRecord.Create crcZero c3evBuf 0).toOption.getD ⟨[], []⟩

/-- A 21-byte G5MeterRecord whose combined test-number field (bytes 15..18)
is 0x12FFFFFF. -/
def c5mBuf : List Nat :=
  [0, 0, 0, 0, 0, 0, 0, 0, 0, 0, 0, 0, 0, 0, 0, 255, 255, 255, 18, 0, 0]

def c5mRec : BaseRecord := (G5MeterRecord.Create crcZero c5mBuf 0).toOption.getD ⟨[], []⟩

/-- A 25-byte G5EGVRecord whose test-number field (bytes 15..18) is
0x12FFFFFF. -/
def c5eBuf : List Nat :=
  [0, 0, 0, 0, 0, 0, 0, 0, 0, 0, 0, 0, 0, 0, 0, 255, 255, 255, 18, 0, 0, 0, 0, 0, 0]

def c5eRec : BaseRecord := (G5EGVRecord.Create crcZero c5eBuf 0).toOption.getD ⟨[], []⟩

/-- A 15-byte InsertionRecord with the insertion-time field at the sentinel
0xFFFFFFFF (bytes 8..11) and system seconds 7. -/
def c6buf : List Nat := [7, 0, 0, 0, 9, 0, 0, 0, 255, 255, 255, 255, 3, 0, 0]

def c6rec : BaseRecord := (InsertionRecord.Create crcZero c6buf 0).toOption.getD ⟨[], []⟩

/-- Same record content as `c6buf`, used by the C9 witness. -/
def c9buf : List Nat := [7, 0, 0, 0, 9, 0, 0, 0, 255, 255, 255, 255, 3, 0, 0]

def c9rec : BaseRecord := (InsertionRecord.Create crcZero c9buf 0).toOption.getD ⟨[], []⟩

/-- A 20-byte EventRecord with display-seconds field 5 (bytes 4..7) but event
time field 9 (bytes 10..13): the overridden display_time reports 9, not 5. -/
def c7buf : List Nat := [1, 0, 0, 0, 5, 0, 0, 0, 0, 0, 9, 0, 0, 0, 0, 0, 0, 0, 0, 0]

/-- A 13-byte all-zero EGVRecord buffer (checksum 0 matches `crcZero`). -/
def c4buf : List Nat := List.replicate 13 0

/-- The parsed field list of `EGVRecord.FORMAT`. -/
def egvFmtList : List FieldSpec := [.u32, .u32, .u16, .u8, .u16]

/-- A 249-byte revision-2 Calibration record with `numsub` = 2 and matching
`crcLen` checksum, for the sub-record accounting witness. -/
def c8buf : List Nat := ((List.replicate 247 0).set 43 2) ++ [247, 0]

def c8rec : CalRecord := (Calibration.Create crcLen c8buf 0).toOption.getD ⟨[], [], []⟩

/-- An EventRecord value tuple with category INSULIN (2) and sub-category 7,
beyond the 3-entry insulin sub-type table. -/
def c3subRec : BaseRecord :=
  ⟨[.nat 1, .nat 5, .nat 2, .nat 7, .nat 9, .nat 250, .nat 0], []⟩

/-
  General-purpose lemmas about the embedding (shared across claims).
-/

theorem calFmt_parses : parseFormat Calibration.FORMAT = some calFmtList := by decide

theorem subCalFmt_parses : parseFormat SubCal.FORMAT = some subCalFmtList := by decide

theorem structSize_cons (f : FieldSpec) (fs : List FieldSpec) :
    structSize (f :: fs) = fieldSize f + structSize fs := by
  simp [structSize]

theorem pySlice_full_length {α : Type} (l : List α) (off size : Nat) (h : off + size ≤ l.length) :
    (pySlice l off (off + size)).length = size := by
  simp [pySlice, List.length_take, List.length_drop]
  omega

theorem structSize_last_u16 {fmt : List FieldSpec} (h : fmt.getLast? = some FieldSpec.u16) :
    2 ≤ structSize fmt := by
  induction fmt with
  | nil => simp at h
  | cons f fs ih =>
    cases fs with
    | nil =>
      simp [List.getLast?] at h
      subst h
      simp [structSize, fieldSize]
    | cons g gs =>
      rw [List.getLast?_cons_cons] at h
      have h2 := ih h
      rw [structSize_cons]
      omega

theorem unpackFields_getLast : ∀ (fmt : List FieldSpec) (bs : List Nat),
    fmt.getLast? = some FieldSpec.u16 → bs.length = structSize fmt →
    (unpackFields fmt bs).getLast? = some (Val.nat (readLE (bs.drop (structSize fmt - 2)))) := by
  intro fmt
  induction fmt with
  | nil => intro bs h hlen; simp at h
  | cons f fs ih =>
    intro bs h hlen
    cases fs with
    | nil =>
      simp [List.getLast?] at h
      subst h
      have h2 : bs.length = 2 := by simpa [structSize, fieldSize] using hlen
      have h3 : bs.take 2 = bs := by
        rw [← h2]
        exact List.take_length bs
      simp [unpackFields, decodeField, structSize, fieldSize, h3]
    | cons g gs =>
      rw [List.getLast?_cons_cons] at h
      have hS : 2 ≤ structSize (g :: gs) := structSize_last_u16 h
      have hlen2 : (bs.drop (fieldSize f)).length = structSize (g :: gs) := by
        rw [List.length_drop, hlen, structSize_cons]
        omega
      have hih := ih (bs.drop (fieldSize f)) h hlen2
      rw [unpackFields, unpackFields, List.getLast?_cons_cons]
      rw [unpackFields] at hih
      rw [hih, List.drop_drop]
      have harith : fieldSize f + (structSize (g :: gs) - 2) = structSize (f :: g :: gs) - 2 := by
        rw [structSize_cons f (g :: gs)]
        omega
      rw [harith]

theorem optMapList_length {α β : Type} {f : α → Option β} :
    ∀ {l : List α} {bs : List β}, optMapList f l = some bs → bs.length = l.length := by
  intro l
  induction l with
  | nil =>
    intro bs h
    simp [optMapList] at h
    subst h
    rfl
  | cons a as ih =>
    intro bs h
    rw [optMapList] at h
    cases hfa : f a with
    | none => rw [hfa] at h; simp at h
    | some b =>
      rw [hfa] at h
      cases hrest : optMapList f as with
      | none => rw [hrest] at h; simp at h
      | some bs2 =>
        rw [hrest] at h
        simp at h
        subst h
        simp [ih hrest]

theorem optMapList_get {α β : Type} {f : α → Option β} :
    ∀ {l : List α} {bs : List β}, optMapList f l = some bs →
      ∀ (i : Nat) (a : α), l.get? i = some a → bs.get? i = f a := by
  intro l
  induction l with
  | nil =>
    intro bs h i a ha
    simp at ha
  | cons x xs ih =>
    intro bs h i a ha
    rw [optMapList] at h
    cases hfa : f x with
    | none => rw [hfa] at h; simp at h
    | some b =>
      rw [hfa] at h
      cases hrest : optMapList f xs with
      | none => rw [hrest] at h; simp at h
      | some bs2 =>
        rw [hrest] at h
        simp at h
        subst h
        cases i with
        | zero =>
          rw [List.get?_cons_zero] at ha
          cases ha
          rw [List.get?_cons_zero, hfa]
        | succ j =>
          rw [List.get?_cons_succ] at ha
          rw [List.get?_cons_succ]
          exact ih hrest j a ha

theorem optMapList_none {α β : Type} (f : α → Option β) (l : List α) (a : α)
    (hmem : a ∈ l) (hfa : f a = none) : optMapList f l = none := by
  induction l with
  | nil => simp at hmem
  | cons x xs ih =>
    rw [optMapList]
    rcases List.mem_cons.mp hmem with heq | htail
    · subst heq
      rw [hfa]
    · cases hfx : f x with
      | none => rfl
      | some b => rw [ih htail]

theorem drop_take_one {α : Type} {l : List α} {n : Nat} {a : α} (h : l.get? n = some a) :
    (l.drop n).take 1 = [a] := by
  have h2 : l[n]? = some a := by
    rw [← List.get?_eq_getElem?]
    exact h
  obtain ⟨hn, hget⟩ := List.getElem?_eq_some.mp h2
  rw [List.drop_eq_getElem_cons hn]
  simp [hget]

theorem unpackFields_cal_get9 (bs : List Nat) :
    (unpackFields calFmtList bs).get? 9 = some (decodeField .i8 ((bs.drop 43).take 1)) := by
  simp only [calFmtList, unpackFields, fieldSize, List.drop_drop, List.get?]

theorem decode_i8_byte {k : Nat} (hk : k < 128) : decodeField .i8 [k] = Val.int k := by
  simp only [decodeField, readLE]
  rw [Nat.mod_eq_of_lt (by omega)]
  simp [hk]

theorem calSize_eq : structSize calFmtList = 44 := by decide

theorem subSize_eq : structSize subCalFmtList = 17 := by decide

theorem pySliceI_ofNat {α : Type} (l : List α) (a b : Nat) :
    pySliceI l (a : Int) ((a : Int) + (b : Int)) = (l.drop a).take b := by
  simp only [pySliceI]
  rw [if_neg (by omega), if_neg (by omega)]
  have h1 : ((a : Int)).toNat = a := by omega
  have h2 : ((a : Int) + (b : Int)).toNat = a + b := by omega
  rw [h1, h2]
  congr 1
  omega

theorem sub_slice_eq (raw : List Nat) (k i : Nat) (hik : i < k) :
    pySlice ((raw.drop 44).take (17 * k)) (i * 17) (i * 17 + 17)
      = (raw.drop (44 + 17 * i)).take 17 := by
  unfold pySlice
  rw [show i * 17 + 17 - i * 17 = 17 from by omega]
  rw [List.drop_take, List.take_take, List.drop_drop]
  rw [show min 17 (17 * k - i * 17) = 17 from by omega]
  rw [show 44 + i * 17 = 44 + 17 * i from by omega]

/-- The name passed to a `CrcError` does not influence which outcome the
fixed-layout `Create` takes, so the successful-decode views agree. -/
theorem create_toOption_name (F n1 n2 : String) (crc16 : List Nat → Nat)
    (data : List Nat) (rc : Nat) :
    (BaseDatabaseRecord.Create F n1 crc16 data rc).toOption
      = (BaseDatabaseRecord.Create F n2 crc16 data rc).toOption := by
  unfold BaseDatabaseRecord.Create
  by_cases hF : F = ""
  · rw [if_pos hF, if_pos hF]
  · rw [if_neg hF, if_neg hF]
    cases hp : parseFormat F with
    | none => rfl
    | some fmt =>
      dsimp only
      cases hu : unpack fmt (pySlice data (rc * structSize fmt) (rc * structSize fmt + structSize fmt)) with
      | none => rfl
      | some vals =>
        dsimp only
        unfold BaseDatabaseRecord.check_crc
        dsimp only
        cases hl : vals.getLast? with
        | none => rfl
        | some v =>
          dsimp only
          by_cases hv : Val.nat (crc16 (pyTrunc2 (pySlice data (rc * structSize fmt) (rc * structSize fmt + structSize fmt)))) = v
          · rw [if_pos hv, if_pos hv]
          · rw [if_neg hv, if_neg hv]
            rfl

/-
  The claims.
-/

/-- C10: `G5EGVRecord` and `G6EGVRecord` are decode-equivalent: the format
strings are identical, the successful decodes coincide on every buffer and
record index, and every accessor (`testNum`, `full_trend`, `realtime`) is the
inherited one. -/
theorem claim_C10 :
    G6EGVRecord.FORMAT = G5EGVRecord.FORMAT
    ∧ (∀ (crc16 : List Nat → Nat) (data : List Nat) (rc : Nat),
        (G6EGVRecord.Create crc16 data rc).toOption = (G5EGVRecord.Create crc16 data rc).toOption)
    ∧ G6EGVRecord.testNum = G5EGVRecord.testNum
    ∧ G6EGVRecord.full_trend = G5EGVRecord.full_trend
    ∧ G6EGVRecord.realtime = G5EGVRecord.realtime :=
  ⟨rfl,
   fun crc16 data rc => create_toOption_name G6EGVRecord.FORMAT "G6EGVRecord" "G5EGVRecord" crc16 data rc,
   rfl, rfl, rfl⟩

/-- C7 (amended): `system_time` is the epoch conversion of the first decoded
field for every variant, and `display_time` is the conversion of the second
decoded field for every variant EXCEPT `EventRecord`, which overrides
`display_time` to convert its fifth decoded field (the event/meter time)
while the raw accessor `display_secs` still reports the second field. -/
theorem claim_C7_amended :
    (∀ (conv : Nat → Nat) (r : BaseRecord),
        GenericTimestampedRecord.system_time conv r = conv (GenericTimestampedRecord.system_secs r))
    ∧ (∀ (conv : Nat → Nat) (r : BaseRecord),
        GenericTimestampedRecord.display_time conv r = conv (GenericTimestampedRecord.display_secs r))
    ∧ (∀ (conv : Nat → Nat) (r : BaseRecord),
        EventRecord.display_time conv r = conv (EventRecord.meter_secs r))
    ∧ (∀ (r : BaseRecord), EventRecord.meter_secs r = (pyGet r.data 4).num)
    ∧ (∀ (r : BaseRecord), GenericTimestampedRecord.display_secs r = (pyGet r.data 1).num) :=
  ⟨fun _ _ => rfl, fun _ _ => rfl, fun _ _ => rfl, fun _ => rfl, fun _ => rfl⟩

/-- C7 counterexample: a successfully decoded EventRecord whose second field
is 5 but whose event-time field is 9; its `display_time` is the conversion of
9, not of `display_secs` = 5, refuting the claim that every concrete variant
derives `display_time` from the second decoded field. -/
theorem claim_C7_counterexample :
    (EventRecord.Create crcZero c7buf 0).toOption.map (EventRecord.display_time (fun t => t)) = some 9
    ∧ (EventRecord.Create crcZero c7buf 0).toOption.map
        (fun r => (fun t => t) (GenericTimestampedRecord.display_secs r)) = some 5
    ∧ (9 : Nat) ≠ 5 :=
  ⟨rfl, rfl, by decide⟩

/-- C6: a successfully decoded InsertionRecord reports `insertion_time` equal
to `system_time` when the raw insertion-seconds field is the sentinel
0xFFFFFFFF, and the epoch conversion of the raw field otherwise. -/
theorem claim_C6 :
    ∀ (conv : Nat → Nat) (crc16 : List Nat → Nat) (data : List Nat) (rc : Nat) (r : BaseRecord),
      InsertionRecord.Create crc16 data rc = .ok r →
      ((pyGet r.data 2).num = 0xFFFFFFFF →
        InsertionRecord.insertion_time conv r = GenericTimestampedRecord.system_time conv r)
      ∧ ((pyGet r.data 2).num ≠ 0xFFFFFFFF →
        InsertionRecord.insertion_time conv r = conv ((pyGet r.data 2).num)) := by
  intro conv crc16 data rc r _
  constructor
  · intro h
    unfold InsertionRecord.insertion_time
    rw [if_pos h]
  · intro h
    unfold InsertionRecord.insertion_time
    rw [if_neg h]

/-- Witness for C6: the sentinel insertion record `c6buf` decodes and its
insertion time equals its system time under a sample epoch conversion. -/
theorem claim_C6_witness :
    InsertionRecord.Create crcZero c6buf 0 = .ok c6rec
    ∧ InsertionRecord.insertion_time (fun t => t + 1000) c6rec
        = GenericTimestampedRecord.system_time (fun t => t + 1000) c6rec :=
  ⟨rfl, (claim_C6 (fun t => t + 1000) crcZero c6buf 0 c6rec rfl).1 rfl⟩

/-- C9: for a successfully decoded InsertionRecord with the sentinel raw
insertion-time field, the raw accessor `insertion_secs` still returns
0xFFFFFFFF unchanged; the substitution happens only in the calendar-time
accessor `insertion_time`, which reports the conversion of the system
seconds. -/
theorem claim_C9 :
    ∀ (conv : Nat → Nat) (crc16 : List Nat → Nat) (data : List Nat) (rc : Nat) (r : BaseRecord),
      InsertionRecord.Create crc16 data rc = .ok r →
      (pyGet r.data 2).num = 0xFFFFFFFF →
      InsertionRecord.insertion_secs r = 0xFFFFFFFF
      ∧ InsertionRecord.insertion_time conv r = conv (GenericTimestampedRecord.system_secs r) := by
  intro conv crc16 data rc r _ h
  refine ⟨h, ?_⟩
  unfold InsertionRecord.insertion_time
  rw [if_pos h]
  rfl

/-- Witness for C9: the sentinel insertion record `c9buf` decodes; its raw
accessor keeps 0xFFFFFFFF while the calendar accessor converts the system
seconds. -/
theorem claim_C9_witness :
    InsertionRecord.Create crcZero c9buf 0 = .ok c9rec
    ∧ InsertionRecord.insertion_secs c9rec = 0xFFFFFFFF
    ∧ InsertionRecord.insertion_time (fun t => t * 2) c9rec
        = (fun t => t * 2) (GenericTimestampedRecord.system_secs c9rec) := by
  have h := claim_C9 (fun t => t * 2) crcZero c9buf 0 c9rec rfl rfl
  exact ⟨rfl, h.1, h.2⟩

/-- C5 (amended): for decoded G5/G6 glucose records `testNum` is the raw
combined field masked with 0x00FFFFFF (so raw 0x12FFFFFF gives 0x00FFFFFF),
but for the G5 meter-calibration record `testNum` is the HIGH three bytes,
`(raw >> 8) & 0xFFFFFF` (so raw 0x12FFFFFF gives 0x12FFFF, not 0x00FFFFFF). -/
theorem claim_C5_amended :
    ∀ (crc16 crc16b : List Nat → Nat) (d1 d2 : List Nat) (rc1 rc2 : Nat) (r1 r2 : BaseRecord),
      G5EGVRecord.Create crc16 d1 rc1 = .ok r1 →
      G5MeterRecord.Create crc16b d2 rc2 = .ok r2 →
      (G5EGVRecord.testNum r1 = (pyGet r1.data 5).num &&& 0xffffff)
      ∧ ((pyGet r1.data 5).num = 0x12FFFFFF → G5EGVRecord.testNum r1 = 0xffffff)
      ∧ (G6EGVRecord.testNum r1 = (pyGet r1.data 5).num &&& 0xffffff)
      ∧ (G5MeterRecord.testNum r2 = ((pyGet r2.data 5).num >>> 8) &&& 0xffffff)
      ∧ ((pyGet r2.data 5).num = 0x12FFFFFF → G5MeterRecord.testNum r2 = 0x12ffff) := by
  intro crc16 crc16b d1 d2 rc1 rc2 r1 r2 _ _
  refine ⟨rfl, ?_, rfl, rfl, ?_⟩
  · intro h
    show (pyGet r1.data 5).num &&& EGV_TESTNUM_MASK = 0xffffff
    rw [h]
    decide
  · intro h
    show ((pyGet r2.data 5).num >>> 8) &&& 0xffffff = 0x12ffff
    rw [h]
    decide

/-- C5 counterexample: a successfully decoded G5 meter-calibration record
whose raw combined field is 0x12FFFFFF has `testNum` 0x12FFFF, not the
0x00FFFFFF that masking with 0x00FFFFFF would give. -/
theorem claim_C5_counterexample :
    G5MeterRecord.Create crcZero c5mBuf 0 = .ok c5mRec
    ∧ (pyGet c5mRec.data 5).num = 0x12FFFFFF
    ∧ G5MeterRecord.testNum c5mRec = 0x12ffff
    ∧ (0x12ffff : Nat) ≠ 0xffffff :=
  ⟨rfl, rfl, by decide, by decide⟩

/-- Witness for C5: concrete decoded G5 EGV and meter records with the raw
field 0x12FFFFFF, whose test numbers are 0xFFFFFF and 0x12FFFF
respectively. -/
theorem claim_C5_witness :
    G5EGVRecord.Create crcZero c5eBuf 0 = .ok c5eRec
    ∧ G5MeterRecord.Create crcZero c5mBuf 0 = .ok c5mRec
    ∧ G5EGVRecord.testNum c5eRec = 0xffffff
    ∧ G5MeterRecord.testNum c5mRec = 0x12ffff := by
  have h := claim_C5_amended crcZero crcZero c5eBuf c5mBuf 0 0 c5eRec c5mRec rfl rfl
  exact ⟨rfl, rfl, h.2.1 rfl, h.2.2.2.2 rfl⟩

/-- C3 (amended): decoding preserves the raw enumerated integers
(`state_value`, `int_type`, `int_sub_type`) and succeeds regardless of their
values, but the symbolic accessors are plain positional list lookups: an
out-of-range raw value makes `session_state`, `event_type` or
`event_sub_type` raise an IndexError instead of reporting the value as
absent/unknown. -/
theorem claim_C3_amended :
    ∀ (r r2 : BaseRecord),
      (InsertionRecord.state_value r = (pyGet r.data 3).num)
      ∧ (18 ≤ (pyGet r.data 3).num → InsertionRecord.session_state r = .error .IndexError)
      ∧ (EventRecord.int_type r2 = (pyGet r2.data 2).num)
      ∧ (6 ≤ (pyGet r2.data 2).num → EventRecord.event_type r2 = .error .IndexError)
      ∧ ((pyGet r2.data 2).num = 2 → 3 ≤ (pyGet r2.data 3).num →
          EventRecord.event_sub_type r2 = .error .IndexError) := by
  intro r r2
  refine ⟨rfl, ?_, rfl, ?_, ?_⟩
  · intro h
    unfold InsertionRecord.session_state
    rw [List.get?_eq_none.mpr (by simp [sessionStates]; omega)]
  · intro h
    unfold EventRecord.event_type
    rw [List.get?_eq_none.mpr (by simp [eventTypes]; omega)]
  · intro h2 h3
    unfold EventRecord.event_sub_type EventRecord.event_type
    rw [h2]
    have htype : eventTypes.get? 2 = some (some "INSULIN") := rfl
    rw [htype]
    dsimp only
    have hsub : eventSubtypesFor "INSULIN" = some [none, some "FAST", some "LONG"] := rfl
    rw [hsub]
    dsimp only
    rw [List.get?_eq_none.mpr (by simp; omega)]

/-- C3 counterexample: an InsertionRecord with session-state byte 20 and an
EventRecord with category byte 6 both decode successfully, yet their symbolic
accessors raise IndexError rather than reporting the value as
absent/unknown. -/
theorem claim_C3_counterexample :
    InsertionRecord.Create crcZero c3buf 0 = .ok c3rec
    ∧ InsertionRecord.state_value c3rec = 20
    ∧ InsertionRecord.session_state c3rec = .error DexError.IndexError
    ∧ EventRecord.Create crcZero c3evBuf 0 = .ok c3evRec
    ∧ EventRecord.event_type c3evRec = .error DexError.IndexError :=
  ⟨rfl, rfl, rfl, rfl, rfl⟩

/-- Witness for C3: the amended accessor behaviour evaluated on the decoded
out-of-range records and on an INSULIN event with sub-category 7. -/
theorem claim_C3_witness :
    InsertionRecord.session_state c3rec = .error DexError.IndexError
    ∧ EventRecord.event_type c3evRec = .error DexError.IndexError
    ∧ EventRecord.event_sub_type c3subRec = .error DexError.IndexError := by
  have h1 := (claim_C3_amended c3rec c3evRec).2.1 (by decide)
  have h2 := (claim_C3_amended c3rec c3evRec).2.2.2.1 (by decide)
  have h3 := (claim_C3_amended c3rec c3subRec).2.2.2.2 (by decide) (by decide)
  exact ⟨h1, h2, h3⟩

/-- C4: every fixed-layout variant's format ends in the 16-bit checksum
field, and for a buffer holding at least `(rc+1)*size` bytes, `Create`
returns the decoded record if and only if the checksum of all slice bytes
except the final two equals the final two bytes as a little-endian 16-bit
integer; on mismatch it fails with a `CrcError` carrying the record type
name, returning no record. -/
theorem claim_C4 :
    ((allFormats.all fun F =>
        (parseFormat F).map (fun fmt => fmt.getLast?) = some (some FieldSpec.u16)) = true)
    ∧ ∀ (F name : String) (crc16 : List Nat → Nat) (data : List Nat) (rc : Nat)
        (fmt : List FieldSpec) (raw : List Nat),
        parseFormat F = some fmt → F ≠ "" → fmt.getLast? = some FieldSpec.u16 →
        (rc + 1) * structSize fmt ≤ data.length →
        raw = pySlice data (rc * structSize fmt) (rc * structSize fmt + structSize fmt) →
        ((BaseDatabaseRecord.Create F name crc16 data rc = .ok ⟨unpackFields fmt raw, raw⟩
            ↔ crc16 (pyTrunc2 raw) = readLE (lastTwo raw))
          ∧ (crc16 (pyTrunc2 raw) ≠ readLE (lastTwo raw) →
              BaseDatabaseRecord.Create F name crc16 data rc = .error (.CrcError name))) := by
  constructor
  · decide
  · intro F name crc16 data rc fmt raw hparse hne hlast hlen hraw
    have hofflen : rc * structSize fmt + structSize fmt ≤ data.length := by
      have hmul : (rc + 1) * structSize fmt = rc * structSize fmt + structSize fmt := by ring
      omega
    have hrawlen : raw.length = structSize fmt := by
      rw [hraw]
      exact pySlice_full_length data _ _ hofflen
    have hunp : unpack fmt raw = some (unpackFields fmt raw) := by
      unfold unpack
      rw [if_pos hrawlen]
    have hlast2 : lastTwo raw = raw.drop (structSize fmt - 2) := by
      unfold lastTwo
      rw [hrawlen]
    have hlastv : (unpackFields fmt raw).getLast? = some (Val.nat (readLE (lastTwo raw))) := by
      rw [hlast2]
      exact unpackFields_getLast fmt raw hlast hrawlen
    have hmain : BaseDatabaseRecord.Create F name crc16 data rc
        = (if crc16 (pyTrunc2 raw) = readLE (lastTwo raw)
            then .ok ⟨unpackFields fmt raw, raw⟩ else .error (.CrcError name)) := by
      unfold BaseDatabaseRecord.Create
      rw [if_neg hne, hparse]
      dsimp only
      rw [← hraw, hunp]
      dsimp only
      unfold BaseDatabaseRecord.check_crc
      dsimp only
      rw [hlastv]
      dsimp only
      by_cases hc : crc16 (pyTrunc2 raw) = readLE (lastTwo raw)
      · rw [if_pos hc, if_pos (by rw [hc])]
      · rw [if_neg hc, if_neg (by simp [Val.nat.injEq, hc])]
    constructor
    · constructor
      · intro hok
        by_contra hc
        rw [hmain, if_neg hc] at hok
        exact absurd hok (by simp)
      · intro hc
        rw [hmain, if_pos hc]
    · intro hc
      rw [hmain, if_neg hc]

/-- Witness for C4: the all-zero EGV buffer decodes (its trailing checksum 0
matches `crcZero` of the first eleven bytes), instantiating the iff and the
mismatch branch. -/
theorem claim_C4_witness :
    ((BaseDatabaseRecord.Create EGVRecord.FORMAT "EGVRecord" crcZero c4buf 0
        = .ok ⟨unpackFields egvFmtList c4buf, c4buf⟩
      ↔ crcZero (pyTrunc2 c4buf) = readLE (lastTwo c4buf))
    ∧ (crcZero (pyTrunc2 c4buf) ≠ readLE (lastTwo c4buf) →
        BaseDatabaseRecord.Create EGVRecord.FORMAT "EGVRecord" crcZero c4buf 0
          = .error (.CrcError "EGVRecord"))) :=
  claim_C4.2 EGVRecord.FORMAT "EGVRecord" crcZero c4buf 0 egvFmtList c4buf
    (by decide) (by decide) (by decide) (by decide) (by decide)

/-- A successful Calibration checksum verification means the inherited
`calculate_crc` of every byte except the final two matched the final two
bytes read as a little-endian 16-bit integer. -/
theorem cal_check_crc_ok {crc16 : List Nat → Nat} {name : String} {r : CalRecord} {u : Unit}
    (h : Calibration.check_crc crc16 name r = .ok u) :
    crc16 (pyTrunc2 r.raw_data) = readLE (lastTwo r.raw_data) := by
  unfold Calibration.check_crc at h
  split at h
  · exact absurd h (by simp)
  · rename_i c hc
    split at h
    · rename_i hcond
      unfold Calibration.crc at hc
      split at hc
      · injection hc with hc2
        exact hcond.trans hc2.symm
      · exact absurd hc (by simp)
    · exact absurd h (by simp)

/-- C1 (amended): for every successfully decoded Calibration record (either
size generation) the verified checksum is computed over every byte of the
record's raw slice except its final two and compared against the final two
bytes as a little-endian 16-bit integer — NOT against the field immediately
after the sub-record span, and the checksummed span coincides with
header + sub-records only when 44 + 17*numsub + 2 happens to equal the class
size. -/
theorem claim_C1_amended :
    ∀ (size : Nat) (name : String) (crc16 : List Nat → Nat) (data : List Nat) (rc : Nat) (r : CalRecord),
      Calibration.CreateSized size name crc16 data rc = .ok r →
      crc16 (pyTrunc2 r.raw_data) = readLE (lastTwo r.raw_data)
      ∧ r.raw_data = pySlice data (rc * size) (rc * size + size) := by
  intro size name crc16 data rc r h
  unfold Calibration.CreateSized at h
  dsimp only at h
  split at h
  · exact absurd h (by simp)
  · rename_i vals hu
    unfold Calibration.init at h
    dsimp only at h
    split at h
    · exact absurd h (by simp)
    · rename_i subcals hm
      split at h
      · rename_i u hc
        injection h with h2
        subst h2
        exact ⟨cal_check_crc_ok hc, rfl⟩
      · exact absurd h (by simp)

set_option maxRecDepth 100000 in
/-- C1 counterexample: a revision-2-size Calibration record with zero
sub-records decodes successfully although the checksum over header +
sub-record bytes does not match the 16-bit field immediately after the
sub-record span — the code verifies the final two bytes of the whole slice
instead. -/
theorem claim_C1_counterexample :
    Calibration.Create crcLen c1buf 0 = .ok c1rec
    ∧ Calibration.numsub c1rec = 0
    ∧ crcLen (pyTrunc2 c1rec.raw_data) = readLE (lastTwo c1rec.raw_data)
    ∧ ¬ specCalibrationCrcCheck crcLen c1rec.raw_data 0 := by
  refine ⟨rfl, rfl, rfl, ?_⟩
  unfold specCalibrationCrcCheck
  decide

set_option maxRecDepth 100000 in
/-- Witness for C1: the concrete record `c1buf` decodes under the sample
checksum function `crcLen`, and its verified span is everything except the
final two bytes. -/
theorem claim_C1_witness :
    Calibration.CreateSized Calibration.REV_2_SIZE "Calibration" crcLen c1buf 0 = .ok c1rec
    ∧ crcLen (pyTrunc2 c1rec.raw_data) = readLE (lastTwo c1rec.raw_data) := by
  have h : Calibration.CreateSized Calibration.REV_2_SIZE "Calibration" crcLen c1buf 0 = .ok c1rec := rfl
  exact ⟨h, (claim_C1_amended Calibration.REV_2_SIZE "Calibration" crcLen c1buf 0 c1rec h).1⟩

/-- The 44-byte header slice is the 44-byte prefix of the whole record
slice. -/
theorem cal_data_eq (data : List Nat) (off size : Nat) (h44 : 44 ≤ size) :
    pySlice data off (off + structSize calFmtList) = (pySlice data off (off + size)).take 44 := by
  unfold pySlice
  rw [calSize_eq]
  rw [show off + 44 - off = 44 from by omega, show off + size - off = size from by omega]
  rw [List.take_take]
  rw [show min 44 size = 44 from by omega]

/-- The sub-record span slice `raw_data[44 : 44 + 17*numsub]` for a
non-negative `numsub`. -/
theorem cal_subdata_term (raw : List Nat) (k : Nat) :
    pySliceI raw (structSize calFmtList)
        ((structSize calFmtList : Int) + (k : Int) * (structSize subCalFmtList : Int))
      = (raw.drop 44).take (17 * k) := by
  rw [calSize_eq, subSize_eq]
  rw [show ((44 : Nat) : Int) + (k : Int) * ((17 : Nat) : Int)
        = ((44 : Nat) : Int) + ((17 * k : Nat) : Int) from by push_cast; ring]
  exact pySliceI_ofNat raw 44 (17 * k)

/-- C2 (corrected): a Calibration decode whose declared sub-record span
overruns the chosen record size does fail, but with the struct unpack error
raised while decoding the short sub-record slice — after the span has been
sliced — never with a `MalformedRecord` check before slicing, which does not
exist in the code; and a `subRecordCount` of 0 is valid, producing a record
with no sub-records when the checksum matches. -/
theorem claim_C2_amended :
    (∀ (size : Nat) (name : String) (crc16 : List Nat → Nat) (data : List Nat) (rc k : Nat),
      (pySlice data (rc * size) (rc * size + size)).length = size →
      (pySlice data (rc * size) (rc * size + size)).get? 43 = some k →
      1 ≤ k → k < 128 → size < 44 + 17 * k →
      Calibration.CreateSized size name crc16 data rc = .error .StructError)
    ∧ (∀ (size : Nat) (name : String) (crc16 : List Nat → Nat) (data : List Nat) (rc : Nat),
      (pySlice data (rc * size) (rc * size + size)).length = size →
      46 ≤ size →
      (pySlice data (rc * size) (rc * size + size)).get? 43 = some 0 →
      crc16 ((pySlice data (rc * size) (rc * size + size)).take (size - 2))
        = readLE ((pySlice data (rc * size) (rc * size + size)).drop (size - 2)) →
      Calibration.CreateSized size name crc16 data rc
        = .ok ⟨unpackFields calFmtList ((pySlice data (rc * size) (rc * size + size)).take 44),
               pySlice data (rc * size) (rc * size + size), []⟩) := by
  constructor
  · intro size name crc16 data rc k hlen h43 hk1 hk2 hover
    have hsz44 : 44 ≤ size := by
      by_contra hc
      have hle : (pySlice data (rc * size) (rc * size + size)).length ≤ 43 := by omega
      rw [List.get?_eq_none.mpr hle] at h43
      exact absurd h43 (by simp)
    have hcd := cal_data_eq data (rc * size) size hsz44
    have hcdlen : ((pySlice data (rc * size) (rc * size + size)).take 44).length = 44 := by
      rw [List.length_take, hlen]
      omega
    have hunp : unpack calFmtList ((pySlice data (rc * size) (rc * size + size)).take 44)
        = some (unpackFields calFmtList ((pySlice data (rc * size) (rc * size + size)).take 44)) := by
      unfold unpack
      rw [if_pos (by rw [hcdlen, calSize_eq])]
    have h43b : ((pySlice data (rc * size) (rc * size + size)).take 44).get? 43 = some k := by
      rw [List.get?_eq_getElem?, List.getElem?_take_of_lt (by omega : (43 : Nat) < 44),
        ← List.get?_eq_getElem?]
      exact h43
    have h9 : (unpackFields calFmtList ((pySlice data (rc * size) (rc * size + size)).take 44)).get? 9
        = some (Val.int k) := by
      rw [unpackFields_cal_get9, drop_take_one h43b, decode_i8_byte hk2]
    have hpy : pyGet (unpackFields calFmtList ((pySlice data (rc * size) (rc * size + size)).take 44)) 9
        = Val.int k := by
      unfold pyGet
      rw [h9]
      rfl
    unfold Calibration.CreateSized
    dsimp only
    rw [hcd, hunp]
    dsimp only
    unfold Calibration.init
    dsimp only
    simp only [hpy, Val.toInt]
    rw [show ((k : Int)).toNat = k from by omega]
    simp only [cal_subdata_term]
    simp only [subSize_eq]
    rw [optMapList_none _ _ (k - 1) (List.mem_range.mpr (by omega))]
    dsimp only
    unfold SubCal.init
    have hlength : (pySlice (((pySlice data (rc * size) (rc * size + size)).drop 44).take (17 * k))
        ((k - 1) * 17) ((k - 1) * 17 + 17)).length < 17 := by
      simp [pySlice, List.length_take, List.length_drop, hlen]
      omega
    unfold unpack
    rw [if_neg (by rw [subSize_eq]; omega)]
  · intro size name crc16 data rc hlen hsz46 h43 hcrc
    have hcd := cal_data_eq data (rc * size) size (by omega)
    have hcdlen : ((pySlice data (rc * size) (rc * size + size)).take 44).length = 44 := by
      rw [List.length_take, hlen]
      omega
    have hunp : unpack calFmtList ((pySlice data (rc * size) (rc * size + size)).take 44)
        = some (unpackFields calFmtList ((pySlice data (rc * size) (rc * size + size)).take 44)) := by
      unfold unpack
      rw [if_pos (by rw [hcdlen, calSize_eq])]
    have h43b : ((pySlice data (rc * size) (rc * size + size)).take 44).get? 43 = some 0 := by
      rw [List.get?_eq_getElem?, List.getElem?_take_of_lt (by omega : (43 : Nat) < 44),
        ← List.get?_eq_getElem?]
      exact h43
    have h9 : (unpackFields calFmtList ((pySlice data (rc * size) (rc * size + size)).take 44)).get? 9
        = some (Val.int 0) := by
      rw [unpackFields_cal_get9, drop_take_one h43b, decode_i8_byte (by omega)]
      rfl
    have hpy : pyGet (unpackFields calFmtList ((pySlice data (rc * size) (rc * size + size)).take 44)) 9
        = Val.int 0 := by
      unfold pyGet
      rw [h9]
      rfl
    unfold Calibration.CreateSized
    dsimp only
    rw [hcd, hunp]
    dsimp only
    unfold Calibration.init
    dsimp only
    simp only [hpy, Val.toInt]
    rw [show ((0 : Int)).toNat = 0 from by omega]
    simp only [List.range_zero, optMapList]
    unfold Calibration.check_crc Calibration.crc
    dsimp only
    have hl2 : (lastTwo (pySlice data (rc * size) (rc * size + size))).length = 2 := by
      unfold lastTwo
      rw [List.length_drop, hlen]
      omega
    rw [if_pos hl2]
    dsimp only
    have hcc2 : crc16 (pyTrunc2 (pySlice data (rc * size) (rc * size + size)))
        = readLE (lastTwo (pySlice data (rc * size) (rc * size + size))) := by
      unfold pyTrunc2 lastTwo
      rw [hlen]
      exact hcrc
    rw [if_pos hcc2]

set_option maxRecDepth 200000 in
/-- C2 counterexample: a revision-2-size Calibration record declaring 13
sub-records (44 + 13*17 = 265 > 249) fails with the struct unpack error, not
with `MalformedRecord`. -/
theorem claim_C2_counterexample :
    Calibration.Create crcZero c2buf 0 = .error DexError.StructError
    ∧ DexError.StructError ≠ DexError.MalformedRecord :=
  ⟨rfl, by decide⟩

set_option maxRecDepth 200000 in
/-- Witness for C2: the overrun record `c2buf` takes the struct-error path
and the zero-sub-record record `c1buf` decodes to a record with no
sub-records. -/
theorem claim_C2_witness :
    Calibration.CreateSized 249 "Calibration" crcZero c2buf 0 = .error .StructError
    ∧ Calibration.CreateSized 249 "Calibration" crcLen c1buf 0
        = .ok ⟨unpackFields calFmtList ((pySlice c1buf (0 * 249) (0 * 249 + 249)).take 44),
               pySlice c1buf (0 * 249) (0 * 249 + 249), []⟩ := by
  constructor
  · exact claim_C2_amended.1 249 "Calibration" crcZero c2buf 0 13
      (by decide) (by decide) (by decide) (by decide) (by decide)
  · exact claim_C2_amended.2 249 "Calibration" crcLen c1buf 0
      (by decide) (by decide) (by decide) (by decide)

/-- Sub-record span slice for an arbitrary non-negative integer count. -/
theorem cal_subdata_term_int (raw : List Nat) (n : Int) (hn : 0 ≤ n) :
    pySliceI raw (structSize calFmtList)
        ((structSize calFmtList : Int) + n * (structSize subCalFmtList : Int))
      = (raw.drop 44).take (17 * n.toNat) := by
  have h := cal_subdata_term raw n.toNat
  rw [Int.toNat_of_nonneg hn] at h
  exact h

/-- C8: a successfully decoded Calibration record with `numsub = k` holds
exactly `k` sub-records, the `i`-th decoded from the contiguous 17-byte slice
at offset `44 + 17*i` of the raw record slice, and the export mapping lists
the `k` ordered sub-record exports under the dedicated `subrecords` key. -/
theorem claim_C8 :
    ∀ (size : Nat) (name : String) (crc16 : List Nat → Nat) (conv : Nat → Nat) (iso : Nat → String)
      (data : List Nat) (rc : Nat) (r : CalRecord),
      Calibration.CreateSized size name crc16 data rc = .ok r →
      r.subcals.length = (Calibration.numsub r).toNat
      ∧ (∀ i, i < (Calibration.numsub r).toNat →
          r.subcals.get? i = SubCal.init ((r.raw_data.drop (44 + 17 * i)).take 17) (pyGet r.data 1))
      ∧ (Calibration.to_dict conv iso r).lookup "subrecords"
          = some (.dlist (r.subcals.map (SubCal.to_dict conv iso)))
      ∧ (r.subcals.map (SubCal.to_dict conv iso)).length = (Calibration.numsub r).toNat := by
  intro size name crc16 conv iso data rc r h
  unfold Calibration.CreateSized at h
  dsimp only at h
  split at h
  · exact absurd h (by simp)
  · rename_i vals hu
    unfold Calibration.init at h
    dsimp only at h
    split at h
    · exact absurd h (by simp)
    · rename_i subcals hm
      split at h
      · rename_i u hc
        injection h with h2
        subst h2
        have hlen1 : subcals.length = ((pyGet vals 9).toInt).toNat := by
          rw [optMapList_length hm, List.length_range]
        refine ⟨hlen1, ?_, rfl, ?_⟩
        · intro i hi
          have hi2 : i < ((pyGet vals 9).toInt).toNat := hi
          show subcals.get? i
            = SubCal.init
                (List.take 17 (List.drop (44 + 17 * i) (pySlice data (rc * size) (rc * size + size))))
                (pyGet vals 1)
          have hget := optMapList_get hm i i
            (by rw [List.get?_eq_getElem?]; exact List.getElem?_range hi2)
          rw [hget]
          have hnn : 0 ≤ (pyGet vals 9).toInt := by
            by_contra hneg
            have hz : ((pyGet vals 9).toInt).toNat = 0 := by omega
            omega
          have hsubeq := cal_subdata_term_int (pySlice data (rc * size) (rc * size + size))
            ((pyGet vals 9).toInt) hnn
          rw [hsubeq]
          simp only [subSize_eq]
          rw [sub_slice_eq (pySlice data (rc * size) (rc * size + size)) _ i hi2]
        · rw [List.length_map]
          exact hlen1
      · exact absurd h (by simp)

set_option maxRecDepth 200000 in
/-- Witness for C8: the concrete record `c8buf` (numsub = 2) decodes; it has
two sub-records and its export lists them under the `subrecords` key. -/
theorem claim_C8_witness :
    Calibration.CreateSized Calibration.REV_2_SIZE "Calibration" crcLen c8buf 0 = .ok c8rec
    ∧ c8rec.subcals.length = (Calibration.numsub c8rec).toNat
    ∧ (Calibration.to_dict (fun t => t) (fun t => toString t) c8rec).lookup "subrecords"
        = some (.dlist (c8rec.subcals.map (SubCal.to_dict (fun t => t) (fun t => toString t)))) := by
  have h : Calibration.CreateSized Calibration.REV_2_SIZE "Calibration" crcLen c8buf 0 = .ok c8rec := rfl
  have hc := claim_C8 Calibration.REV_2_SIZE "Calibration" crcLen (fun t => t) (fun t => toString t)
    c8buf 0 c8rec h
  exact ⟨h, hc.1, hc.2.2.1⟩
